import Mathlib

/-!
Verification of the btc-compass valuation engine.

The engine (src/services/modelEngine.ts, constants in src/constants.ts) is a
library of pure functions from a calendar date to power-law fair-value curves,
a cyclical adjustment, a weighted blend, and a volatility band; a thin
indicator layer (calculateIndicators in src/App.tsx) derives a log-oscillator,
an on-chain proxy, a composite risk percentage and a market regime.

Dates are modelled as their JavaScript epoch timestamps in milliseconds
(`Date.getTime()` values), i.e. integers; all numeric quantities are modelled
as real numbers, the exact-arithmetic idealisation of the JavaScript doubles
used by the source. `Math.floor` of an integer quotient is integer floor
division (`Int.fdiv`), the JavaScript `%` operator is the truncated remainder
(`Int.tmod`), and `Math.pow` on a positive base is `Real.rpow`.
-/

noncomputable section

/-- Epoch milliseconds of `new Date('2009-01-03')` (src/constants.ts). -/
def GENESIS_DATE : ℤ := 1230940800000

/-- Epoch milliseconds of `new Date('2024-04-20')` (src/constants.ts). -/
def HALVING_DATE : ℤ := 1713571200000

/-- `A_STD = 1.48e-17` (src/constants.ts). -/
def A_STD : ℝ := 1.48e-17

/-- `B_STD = 5.78` (src/constants.ts). -/
def B_STD : ℝ := 5.78

/-- `A_DECAY = 1.48e-15` (src/constants.ts). -/
def A_DECAY : ℝ := 1.48e-15

/-- `B_DECAY = 5.25` (src/constants.ts). -/
def B_DECAY : ℝ := 5.25

/-- `getDaysSinceGenesis` (src/services/modelEngine.ts):
`Math.floor((date.getTime() - GENESIS_DATE.getTime()) / (1000*60*60*24))`. -/
def getDaysSinceGenesis (date : ℤ) : ℤ :=
  (date - GENESIS_DATE).fdiv (1000 * 60 * 60 * 24)

/-- `calcStandard` (src/services/modelEngine.ts): `A_STD * Math.pow(days, B_STD)`. -/
def calcStandard (days : ℝ) : ℝ := A_STD * days ^ B_STD

/-- `calcDecaying` (src/services/modelEngine.ts): `A_DECAY * Math.pow(days, B_DECAY)`. -/
def calcDecaying (days : ℝ) : ℝ := A_DECAY * days ^ B_DECAY

/-- The `cycleDays` local of `calcCycle`:
`Math.floor((date.getTime() - HALVING_DATE.getTime()) / (1000*60*60*24))`. -/
def cycleDays (date : ℤ) : ℤ :=
  (date - HALVING_DATE).fdiv (1000 * 60 * 60 * 24)

/-- The `cyclePos` local of `calcCycle`: `((cycleDays % 1460) + 1460) % 1460`,
with `%` the JavaScript truncated remainder. -/
def cyclePos (date : ℤ) : ℤ :=
  ((cycleDays date).tmod 1460 + 1460).tmod 1460

/-- `calcCycle` (src/services/modelEngine.ts): the standard curve modulated by
a sine wave of period 1460 days phase-locked to `HALVING_DATE`. -/
def calcCycle (days : ℝ) (date : ℤ) : ℝ :=
  let base := calcStandard days
  let wave := 1 + 0.15 * Real.sin ((2 * Real.pi * (cyclePos date : ℝ)) / 1460)
  base * wave

/-- `calcWeightedTotal` (src/services/modelEngine.ts):
`calcDecaying*0.4 + calcCycle*0.3 + calcStandard*0.3`. -/
def calcWeightedTotal (days : ℝ) (date : ℤ) : ℝ :=
  calcDecaying days * 0.4 + calcCycle days date * 0.3 + calcStandard days * 0.3

/-- `getDynamicSigma` (src/services/modelEngine.ts):
`baseSigma * Math.pow(referenceDay / Math.max(referenceDay, days), decayRate)`
with `baseSigma = 0.5`, `decayRate = 0.12`, `referenceDay = 5800`. -/
def getDynamicSigma (days : ℝ) : ℝ :=
  let baseSigma : ℝ := 0.5
  let decayRate : ℝ := 0.12
  let referenceDay : ℝ := 5800
  baseSigma * (referenceDay / max referenceDay days) ^ decayRate

/-- `ModelValues` (src/types.ts). -/
structure ModelValues where
  standard : ℝ
  decaying : ℝ
  cycle : ℝ
  weighted : ℝ
  upper : ℝ
  lower : ℝ

/-- `getModelValues` (src/services/modelEngine.ts). -/
def getModelValues (date : ℤ) : ModelValues :=
  let days : ℝ := (getDaysSinceGenesis date : ℝ)
  let weighted := calcWeightedTotal days date
  let sigma := getDynamicSigma days
  { standard := calcStandard days
    decaying := calcDecaying days
    cycle := calcCycle days date
    weighted := weighted
    upper := weighted * Real.exp sigma
    lower := weighted * Real.exp (-sigma) }

/-- `MarketStatus` (src/types.ts). -/
inductive MarketStatus where
  | ACCUMULATE
  | STABLE
  | SELL
deriving DecidableEq

/-- Result record of `calculateIndicators` (src/App.tsx). -/
structure IndicatorResult where
  model : ModelValues
  oscillator : ℝ
  mvrvEst : ℝ
  status : MarketStatus
  riskPercent : ℝ

/-- `calculateIndicators` (src/App.tsx, lines 110-122). -/
def calculateIndicators (price : ℝ) (date : ℤ) (fng : ℝ) : IndicatorResult :=
  let model := getModelValues date
  let oscillator := if price > 0 then Real.log (price / model.weighted) else 0
  let priceRisk := max 0 (min 100 ((oscillator + 0.5) / 1.0 * 100))
  let mvrvEst := oscillator * 6.5 + 2.5
  let riskPercent :=
    priceRisk * 0.6 + fng * 0.2 + (max 0 (min 100 (mvrvEst / 6 * 100))) * 0.2
  let status :=
    if riskPercent < 35 then MarketStatus.ACCUMULATE
    else if riskPercent > 70 then MarketStatus.SELL
    else MarketStatus.STABLE
  { model := model, oscillator := oscillator, mvrvEst := mvrvEst,
    status := status, riskPercent := riskPercent }

lemma getModelValues_standard (t : ℤ) :
    (getModelValues t).standard = calcStandard (getDaysSinceGenesis t : ℝ) := rfl

lemma getModelValues_decaying (t : ℤ) :
    (getModelValues t).decaying = calcDecaying (getDaysSinceGenesis t : ℝ) := rfl

lemma getModelValues_cycle (t : ℤ) :
    (getModelValues t).cycle = calcCycle (getDaysSinceGenesis t : ℝ) t := rfl

lemma getModelValues_weighted (t : ℤ) :
    (getModelValues t).weighted = calcWeightedTotal (getDaysSinceGenesis t : ℝ) t := rfl

lemma getModelValues_upper (t : ℤ) :
    (getModelValues t).upper =
      calcWeightedTotal (getDaysSinceGenesis t : ℝ) t *
        Real.exp (getDynamicSigma (getDaysSinceGenesis t : ℝ)) := rfl

lemma getModelValues_lower (t : ℤ) :
    (getModelValues t).lower =
      calcWeightedTotal (getDaysSinceGenesis t : ℝ) t *
        Real.exp (-getDynamicSigma (getDaysSinceGenesis t : ℝ)) := rfl

lemma getDynamicSigma_eq (d : ℝ) :
    getDynamicSigma d = 0.5 * ((5800 : ℝ) / max 5800 d) ^ (0.12 : ℝ) := rfl

/-- A sample evaluation date: 5000 days after genesis. -/
def sampleDate : ℤ := GENESIS_DATE + 5000 * (1000 * 60 * 60 * 24)

lemma sampleDate_days : getDaysSinceGenesis sampleDate = 5000 := by
  decide

/-- C1: for every date with day count ≥ 1, the returned record satisfies
`weighted = 0.4*decaying + 0.3*cycle + 0.3*standard`, and the blend weights
sum exactly to 1. -/
theorem weighted_blend_convex (t : ℤ) (hd : 1 ≤ getDaysSinceGenesis t) :
    (getModelValues t).weighted =
      0.4 * (getModelValues t).decaying + 0.3 * (getModelValues t).cycle +
        0.3 * (getModelValues t).standard ∧
      (0.4 : ℝ) + 0.3 + 0.3 = 1 := by
  constructor
  · rw [getModelValues_weighted, getModelValues_decaying, getModelValues_cycle,
      getModelValues_standard]
    unfold calcWeightedTotal
    ring
  · norm_num

/-- Witness for C1 at the sample date. -/
theorem weighted_blend_convex_witness :
    (getModelValues sampleDate).weighted =
      0.4 * (getModelValues sampleDate).decaying +
        0.3 * (getModelValues sampleDate).cycle +
        0.3 * (getModelValues sampleDate).standard ∧
      (0.4 : ℝ) + 0.3 + 0.3 = 1 :=
  weighted_blend_convex sampleDate (by rw [sampleDate_days]; norm_num)

/-- C4: sigma is exactly 0.5 for day counts up to the maturity threshold 5800
and strictly decreasing beyond it. -/
theorem sigma_plateau_then_decreasing :
    (∀ d : ℝ, d ≤ 5800 → getDynamicSigma d = 0.5) ∧
      ∀ d1 d2 : ℝ, 5800 < d1 → d1 < d2 →
        getDynamicSigma d2 < getDynamicSigma d1 := by
  constructor
  · intro d hd
    rw [getDynamicSigma_eq, max_eq_left hd]
    norm_num
  · intro d1 d2 h1 h12
    rw [getDynamicSigma_eq, getDynamicSigma_eq,
      max_eq_right (le_of_lt h1), max_eq_right (le_of_lt (h1.trans h12))]
    have hd1 : (0:ℝ) < d1 := lt_trans (by norm_num) h1
    have hd2 : (0:ℝ) < d2 := lt_trans hd1 h12
    have hdiv : (5800:ℝ) / d2 < 5800 / d1 :=
      div_lt_div_of_pos_left (by norm_num) hd1 h12
    have hpow : ((5800:ℝ) / d2) ^ (0.12:ℝ) < ((5800:ℝ) / d1) ^ (0.12:ℝ) :=
      Real.rpow_lt_rpow (le_of_lt (div_pos (by norm_num) hd2)) hdiv (by norm_num)
    nlinarith [hpow]

/-- Witness for C4 at concrete day counts 5000, 6000 and 7000. -/
theorem sigma_plateau_then_decreasing_witness :
    getDynamicSigma 5000 = 0.5 ∧ getDynamicSigma 7000 < getDynamicSigma 6000 :=
  ⟨sigma_plateau_then_decreasing.1 5000 (by norm_num),
    sigma_plateau_then_decreasing.2 6000 7000 (by norm_num) (by norm_num)⟩

lemma calcStandard_pos {d : ℝ} (hd : 0 < d) : 0 < calcStandard d := by
  unfold calcStandard
  exact mul_pos (by norm_num [A_STD]) (Real.rpow_pos_of_pos hd _)

lemma calcDecaying_pos {d : ℝ} (hd : 0 < d) : 0 < calcDecaying d := by
  unfold calcDecaying
  exact mul_pos (by norm_num [A_DECAY]) (Real.rpow_pos_of_pos hd _)

lemma wave_bounds (x : ℝ) :
    0.85 ≤ 1 + 0.15 * Real.sin x ∧ 1 + 0.15 * Real.sin x ≤ 1.15 := by
  have h1 := Real.neg_one_le_sin x
  have h2 := Real.sin_le_one x
  constructor <;> nlinarith

lemma calcCycle_eq (d : ℝ) (t : ℤ) :
    calcCycle d t =
      calcStandard d *
        (1 + 0.15 * Real.sin ((2 * Real.pi * (cyclePos t : ℝ)) / 1460)) := rfl

lemma calcCycle_pos {d : ℝ} (hd : 0 < d) (t : ℤ) : 0 < calcCycle d t := by
  rw [calcCycle_eq]
  have hw := wave_bounds ((2 * Real.pi * (cyclePos t : ℝ)) / 1460)
  nlinarith [calcStandard_pos hd]

lemma calcWeightedTotal_pos {d : ℝ} (hd : 0 < d) (t : ℤ) :
    0 < calcWeightedTotal d t := by
  unfold calcWeightedTotal
  nlinarith [calcStandard_pos hd, calcDecaying_pos hd, calcCycle_pos hd t]

lemma getDynamicSigma_pos (d : ℝ) : 0 < getDynamicSigma d := by
  rw [getDynamicSigma_eq]
  have hmax : (0:ℝ) < max 5800 d := lt_of_lt_of_le (by norm_num) (le_max_left _ _)
  exact mul_pos (by norm_num) (Real.rpow_pos_of_pos (div_pos (by norm_num) hmax) _)

lemma days_cast_pos {t : ℤ} (hd : 1 ≤ getDaysSinceGenesis t) :
    (0:ℝ) < (getDaysSinceGenesis t : ℝ) := by
  exact_mod_cast (by omega : (0:ℤ) < getDaysSinceGenesis t)

/-- C9: for every date with day count ≥ 1, all six returned curve values are
strictly positive, and the sine wave multiplier stays within `[0.85, 1.15]`. -/
theorem model_values_positive (t : ℤ) (hd : 1 ≤ getDaysSinceGenesis t) :
    0 < (getModelValues t).standard ∧ 0 < (getModelValues t).decaying ∧
      0 < (getModelValues t).cycle ∧ 0 < (getModelValues t).weighted ∧
      0 < (getModelValues t).upper ∧ 0 < (getModelValues t).lower ∧
      0.85 ≤ 1 + 0.15 * Real.sin ((2 * Real.pi * (cyclePos t : ℝ)) / 1460) ∧
      1 + 0.15 * Real.sin ((2 * Real.pi * (cyclePos t : ℝ)) / 1460) ≤ 1.15 := by
  have hdp := days_cast_pos hd
  have hw := calcWeightedTotal_pos hdp t
  have hwave := wave_bounds ((2 * Real.pi * (cyclePos t : ℝ)) / 1460)
  refine ⟨?_, ?_, ?_, ?_, ?_, ?_, hwave.1, hwave.2⟩
  · rw [getModelValues_standard]; exact calcStandard_pos hdp
  · rw [getModelValues_decaying]; exact calcDecaying_pos hdp
  · rw [getModelValues_cycle]; exact calcCycle_pos hdp t
  · rw [getModelValues_weighted]; exact hw
  · rw [getModelValues_upper]; exact mul_pos hw (Real.exp_pos _)
  · rw [getModelValues_lower]; exact mul_pos hw (Real.exp_pos _)

/-- Witness for C9 at the sample date. -/
theorem model_values_positive_witness :
    0 < (getModelValues sampleDate).standard ∧
      0 < (getModelValues sampleDate).decaying ∧
      0 < (getModelValues sampleDate).cycle ∧
      0 < (getModelValues sampleDate).weighted ∧
      0 < (getModelValues sampleDate).upper ∧
      0 < (getModelValues sampleDate).lower ∧
      0.85 ≤ 1 + 0.15 * Real.sin ((2 * Real.pi * (cyclePos sampleDate : ℝ)) / 1460) ∧
      1 + 0.15 * Real.sin ((2 * Real.pi * (cyclePos sampleDate : ℝ)) / 1460) ≤ 1.15 :=
  model_values_positive sampleDate (by rw [sampleDate_days]; norm_num)

/-- C2: for every date with day count ≥ 1 the band brackets the blend strictly,
`lower < weighted < upper`, with `upper = weighted * exp sigma` and
`lower = weighted * exp (-sigma)`. -/
theorem band_ordering (t : ℤ) (hd : 1 ≤ getDaysSinceGenesis t) :
    (getModelValues t).lower < (getModelValues t).weighted ∧
      (getModelValues t).weighted < (getModelValues t).upper ∧
      (getModelValues t).upper =
        (getModelValues t).weighted *
          Real.exp (getDynamicSigma (getDaysSinceGenesis t : ℝ)) ∧
      (getModelValues t).lower =
        (getModelValues t).weighted *
          Real.exp (-getDynamicSigma (getDaysSinceGenesis t : ℝ)) := by
  have hdp := days_cast_pos hd
  have hw : 0 < calcWeightedTotal (getDaysSinceGenesis t : ℝ) t :=
    calcWeightedTotal_pos hdp t
  have hs := getDynamicSigma_pos (getDaysSinceGenesis t : ℝ)
  have hexp1 : 1 < Real.exp (getDynamicSigma (getDaysSinceGenesis t : ℝ)) := by
    have := Real.exp_lt_exp.mpr hs
    rwa [Real.exp_zero] at this
  have hexp2 : Real.exp (-getDynamicSigma (getDaysSinceGenesis t : ℝ)) < 1 := by
    have := Real.exp_lt_exp.mpr (neg_lt_zero.mpr hs)
    rwa [Real.exp_zero] at this
  have hexp3 := Real.exp_pos (-getDynamicSigma (getDaysSinceGenesis t : ℝ))
  refine ⟨?_, ?_, ?_, ?_⟩
  · rw [getModelValues_lower, getModelValues_weighted]
    nlinarith
  · rw [getModelValues_upper, getModelValues_weighted]
    nlinarith
  · rw [getModelValues_upper, getModelValues_weighted]
  · rw [getModelValues_lower, getModelValues_weighted]

/-- Witness for C2 at the sample date. -/
theorem band_ordering_witness :
    (getModelValues sampleDate).lower < (getModelValues sampleDate).weighted ∧
      (getModelValues sampleDate).weighted < (getModelValues sampleDate).upper ∧
      (getModelValues sampleDate).upper =
        (getModelValues sampleDate).weighted *
          Real.exp (getDynamicSigma (getDaysSinceGenesis sampleDate : ℝ)) ∧
      (getModelValues sampleDate).lower =
        (getModelValues sampleDate).weighted *
          Real.exp (-getDynamicSigma (getDaysSinceGenesis sampleDate : ℝ)) :=
  band_ordering sampleDate (by rw [sampleDate_days]; norm_num)

lemma tmod_1460_lower (a : ℤ) : -1460 < a.tmod 1460 := by
  cases a with
  | ofNat m =>
    have h : (0:ℤ) ≤ (Int.ofNat m).tmod 1460 :=
      Int.tmod_nonneg 1460 (Int.ofNat_nonneg m)
    omega
  | negSucc m =>
    have h1 : (Int.negSucc m).tmod 1460 = -(((m + 1) % 1460 : ℕ) : ℤ) := rfl
    have h2 : (m + 1) % 1460 < 1460 := Nat.mod_lt _ (by norm_num)
    omega

lemma double_tmod_1460 (a : ℤ) : (a.tmod 1460 + 1460).tmod 1460 = a % 1460 := by
  have hub := Int.tmod_lt_of_pos a (show (0:ℤ) < 1460 by norm_num)
  have hlb := tmod_1460_lower a
  have hdvd := Int.tmod_add_tdiv a 1460
  have heq : (a.tmod 1460 + 1460).tmod 1460 = (a.tmod 1460 + 1460) % 1460 :=
    Int.tmod_eq_emod (by omega) (by norm_num)
  rw [heq]
  omega

lemma cyclePos_eq_emod (t : ℤ) : cyclePos t = cycleDays t % 1460 :=
  double_tmod_1460 _

lemma cycleDays_shift (t : ℤ) :
    cycleDays (t + 1460 * (1000 * 60 * 60 * 24)) = cycleDays t + 1460 := by
  unfold cycleDays
  rw [Int.fdiv_eq_ediv _ (by norm_num), Int.fdiv_eq_ediv _ (by norm_num)]
  omega

lemma cyclePos_shift (t : ℤ) :
    cyclePos (t + 1460 * (1000 * 60 * 60 * 24)) = cyclePos t := by
  rw [cyclePos_eq_emod, cyclePos_eq_emod, cycleDays_shift]
  omega

/-- C5: the double-modulo normalizes the cycle position into `[0, 1460)` for
every date, including dates before the halving reference, and `calcCycle` is
periodic in the date with period 1460 days. -/
theorem cycle_normalization_and_periodicity :
    (∀ t : ℤ, 0 ≤ cyclePos t ∧ cyclePos t < 1460 ∧
        cyclePos t = cycleDays t % 1460) ∧
      ∀ (d : ℝ) (t : ℤ),
        calcCycle d (t + 1460 * (1000 * 60 * 60 * 24)) = calcCycle d t := by
  constructor
  · intro t
    rw [cyclePos_eq_emod]
    exact ⟨Int.emod_nonneg _ (by norm_num), Int.emod_lt_of_pos _ (by norm_num), rfl⟩
  · intro d t
    rw [calcCycle_eq, calcCycle_eq, cyclePos_shift]

/-- C3 counterexample: at `GENESIS_DATE` itself the day count is 0, it is not
clamped to 1, and it is fed directly into the power law, so the standard
curve evaluates to `A_STD * 0 ^ B_STD = 0`. -/
theorem genesis_day_count_not_clamped :
    getDaysSinceGenesis GENESIS_DATE = 0 ∧
      ¬ (1 ≤ getDaysSinceGenesis GENESIS_DATE) ∧
      (getModelValues GENESIS_DATE).standard = A_STD * (0 : ℝ) ^ B_STD ∧
      (getModelValues GENESIS_DATE).standard = 0 := by
  have h0 : getDaysSinceGenesis GENESIS_DATE = 0 := by decide
  refine ⟨h0, by omega, ?_, ?_⟩
  · rw [getModelValues_standard, h0, Int.cast_zero]
    exact rfl
  · rw [getModelValues_standard, h0, Int.cast_zero]
    unfold calcStandard
    rw [Real.zero_rpow (by norm_num [B_STD])]
    ring

/-- C3 amended: the engine neither clamps the day count nor rejects early
dates — `getModelValues` feeds the raw floored day count into `days ^ B`,
and that day count is negative for every date before `GENESIS_DATE`. -/
theorem raw_day_count_fed_to_pow (t : ℤ) (ht : t < GENESIS_DATE) :
    (getModelValues t).standard =
        A_STD * ((getDaysSinceGenesis t : ℝ)) ^ B_STD ∧
      getDaysSinceGenesis t < 0 := by
  constructor
  · rw [getModelValues_standard]
    exact rfl
  · unfold getDaysSinceGenesis
    rw [Int.fdiv_eq_ediv _ (by norm_num)]
    omega

/-- Witness for the amended C3 one day before genesis. -/
theorem raw_day_count_fed_to_pow_witness :
    (getModelValues (GENESIS_DATE - 86400000)).standard =
        A_STD * ((getDaysSinceGenesis (GENESIS_DATE - 86400000) : ℝ)) ^ B_STD ∧
      getDaysSinceGenesis (GENESIS_DATE - 86400000) < 0 :=
  raw_day_count_fed_to_pow _ (by decide)

lemma calculateIndicators_oscillator (p : ℝ) (t : ℤ) (f : ℝ) :
    (calculateIndicators p t f).oscillator =
      if p > 0 then Real.log (p / (getModelValues t).weighted) else 0 := rfl

lemma calculateIndicators_mvrvEst (p : ℝ) (t : ℤ) (f : ℝ) :
    (calculateIndicators p t f).mvrvEst =
      (calculateIndicators p t f).oscillator * 6.5 + 2.5 := rfl

lemma calculateIndicators_riskPercent (p : ℝ) (t : ℤ) (f : ℝ) :
    (calculateIndicators p t f).riskPercent =
      max 0 (min 100 (((calculateIndicators p t f).oscillator + 0.5) / 1.0 * 100)) * 0.6 +
        f * 0.2 +
        (max 0 (min 100 ((calculateIndicators p t f).mvrvEst / 6 * 100))) * 0.2 := rfl

lemma calculateIndicators_status (p : ℝ) (t : ℤ) (f : ℝ) :
    (calculateIndicators p t f).status =
      if (calculateIndicators p t f).riskPercent < 35 then MarketStatus.ACCUMULATE
      else if (calculateIndicators p t f).riskPercent > 70 then MarketStatus.SELL
      else MarketStatus.STABLE := rfl

lemma getModelValues_weighted_pos {t : ℤ} (hd : 1 ≤ getDaysSinceGenesis t) :
    0 < (getModelValues t).weighted := by
  rw [getModelValues_weighted]
  exact calcWeightedTotal_pos (days_cast_pos hd) t

/-- C6: with a positive observed price, a sentiment index in `[0, 100]` and a
day count ≥ 1, the composite risk percentage stays in `[0, 100]`, and the
fixed weights 0.6/0.2/0.2 sum to 1. -/
theorem risk_percent_in_range (p : ℝ) (t : ℤ) (f : ℝ)
    (hp : 0 < p) (hf0 : 0 ≤ f) (hf1 : f ≤ 100)
    (hd : 1 ≤ getDaysSinceGenesis t) :
    0 ≤ (calculateIndicators p t f).riskPercent ∧
      (calculateIndicators p t f).riskPercent ≤ 100 ∧
      (0.6 : ℝ) + 0.2 + 0.2 = 1 := by
  rw [calculateIndicators_riskPercent]
  set x := ((calculateIndicators p t f).oscillator + 0.5) / 1.0 * 100 with hx
  set y := (calculateIndicators p t f).mvrvEst / 6 * 100 with hy
  have hA0 : (0:ℝ) ≤ max 0 (min 100 x) := le_max_left _ _
  have hA1 : max 0 (min 100 x) ≤ 100 :=
    max_le (by norm_num) (min_le_left _ _)
  have hB0 : (0:ℝ) ≤ max 0 (min 100 y) := le_max_left _ _
  have hB1 : max 0 (min 100 y) ≤ 100 :=
    max_le (by norm_num) (min_le_left _ _)
  refine ⟨by linarith, by linarith, by norm_num⟩

/-- Witness for C6: price 1, sentiment 50, at the sample date. -/
theorem risk_percent_in_range_witness :
    0 ≤ (calculateIndicators 1 sampleDate 50).riskPercent ∧
      (calculateIndicators 1 sampleDate 50).riskPercent ≤ 100 ∧
      (0.6 : ℝ) + 0.2 + 0.2 = 1 :=
  risk_percent_in_range 1 sampleDate 50 (by norm_num) (by norm_num) (by norm_num)
    (by rw [sampleDate_days]; norm_num)

/-- C7: the regime classification is a total, non-overlapping partition of the
risk range by the fixed thresholds 35 and 70, with both boundary values
classified STABLE. -/
theorem regime_total_partition (p : ℝ) (t : ℤ) (f : ℝ) :
    ((calculateIndicators p t f).status = MarketStatus.ACCUMULATE ↔
        (calculateIndicators p t f).riskPercent < 35) ∧
      ((calculateIndicators p t f).status = MarketStatus.SELL ↔
        (calculateIndicators p t f).riskPercent > 70) ∧
      ((calculateIndicators p t f).status = MarketStatus.STABLE ↔
        (35 ≤ (calculateIndicators p t f).riskPercent ∧
          (calculateIndicators p t f).riskPercent ≤ 70)) := by
  rw [calculateIndicators_status]
  set r := (calculateIndicators p t f).riskPercent with hr
  rcases lt_or_ge r 35 with h1 | h1
  · rw [if_pos h1]
    exact ⟨⟨fun _ => h1, fun _ => rfl⟩,
      ⟨fun hc => MarketStatus.noConfusion hc,
        fun hgt => absurd hgt (not_lt.mpr (by linarith))⟩,
      ⟨fun hc => MarketStatus.noConfusion hc,
        fun hb => absurd h1 (not_lt.mpr hb.1)⟩⟩
  · rw [if_neg (not_lt.mpr h1)]
    rcases lt_or_ge 70 r with h2 | h2
    · rw [if_pos h2]
      exact ⟨⟨fun hc => MarketStatus.noConfusion hc,
          fun hlt => absurd hlt (not_lt.mpr h1)⟩,
        ⟨fun _ => h2, fun _ => rfl⟩,
        ⟨fun hc => MarketStatus.noConfusion hc,
          fun hb => absurd h2 (not_lt.mpr hb.2)⟩⟩
    · rw [if_neg (not_lt.mpr h2)]
      exact ⟨⟨fun hc => MarketStatus.noConfusion hc,
          fun hlt => absurd hlt (not_lt.mpr h1)⟩,
        ⟨fun hc => MarketStatus.noConfusion hc,
          fun hgt => absurd hgt (not_lt.mpr h2)⟩,
        ⟨fun _ => ⟨h1, h2⟩, fun _ => rfl⟩⟩


/-- C8: the oscillator is `ln(price / weighted)` for positive prices and falls
back to 0 for non-positive prices; price equal to fair value gives 0, twice
fair value gives `ln 2`. -/
theorem oscillator_log_deviation (p : ℝ) (t : ℤ) (f : ℝ) :
    (0 < p →
        (calculateIndicators p t f).oscillator =
          Real.log (p / (getModelValues t).weighted)) ∧
      (p ≤ 0 → (calculateIndicators p t f).oscillator = 0) ∧
      (1 ≤ getDaysSinceGenesis t → p = (getModelValues t).weighted →
        (calculateIndicators p t f).oscillator = 0) ∧
      (1 ≤ getDaysSinceGenesis t → p = 2 * (getModelValues t).weighted →
        (calculateIndicators p t f).oscillator = Real.log 2) := by
  refine ⟨?_, ?_, ?_, ?_⟩
  · intro hp
    rw [calculateIndicators_oscillator, if_pos hp]
  · intro hp
    rw [calculateIndicators_oscillator, if_neg (not_lt.mpr hp)]
  · intro hd hp
    have hw := getModelValues_weighted_pos hd
    rw [calculateIndicators_oscillator, if_pos (show p > 0 by rw [hp]; exact hw),
      hp, div_self (ne_of_gt hw), Real.log_one]
  · intro hd hp
    have hw := getModelValues_weighted_pos hd
    rw [calculateIndicators_oscillator,
      if_pos (show p > 0 by rw [hp]; positivity), hp, mul_div_assoc,
      div_self (ne_of_gt hw), mul_one]

/-- Witness for C8: at the sample date, observing exactly the fair value gives
a zero oscillator. -/
theorem oscillator_log_deviation_witness :
    (calculateIndicators ((getModelValues sampleDate).weighted) sampleDate
        50).oscillator = 0 :=
  (oscillator_log_deviation ((getModelValues sampleDate).weighted) sampleDate
      50).2.2.1 (by rw [sampleDate_days]; norm_num) rfl

/-- C10: for a fixed date with day count ≥ 1 and a fixed sentiment index, the
composite risk percentage is monotone non-decreasing in the observed price. -/
theorem risk_percent_monotone_in_price (t : ℤ) (f p1 p2 : ℝ)
    (hd : 1 ≤ getDaysSinceGenesis t) (hp1 : 0 < p1) (hp12 : p1 ≤ p2) :
    (calculateIndicators p1 t f).riskPercent ≤
      (calculateIndicators p2 t f).riskPercent := by
  have hw := getModelValues_weighted_pos hd
  have hp2 : 0 < p2 := lt_of_lt_of_le hp1 hp12
  have hosc : (calculateIndicators p1 t f).oscillator ≤
      (calculateIndicators p2 t f).oscillator := by
    rw [calculateIndicators_oscillator, calculateIndicators_oscillator,
      if_pos hp1, if_pos hp2]
    exact Real.log_le_log (div_pos hp1 hw) (by gcongr)
  rw [calculateIndicators_riskPercent, calculateIndicators_riskPercent,
    calculateIndicators_mvrvEst, calculateIndicators_mvrvEst]
  set o1 := (calculateIndicators p1 t f).oscillator with ho1
  set o2 := (calculateIndicators p2 t f).oscillator with ho2
  have h1 : max 0 (min 100 ((o1 + 0.5) / 1.0 * 100)) ≤
      max 0 (min 100 ((o2 + 0.5) / 1.0 * 100)) :=
    max_le_max le_rfl (min_le_min le_rfl (by linarith))
  have h2 : max 0 (min 100 ((o1 * 6.5 + 2.5) / 6 * 100)) ≤
      max 0 (min 100 ((o2 * 6.5 + 2.5) / 6 * 100)) :=
    max_le_max le_rfl (min_le_min le_rfl (by linarith))
  linarith

/-- Witness for C10 at the sample date with prices 1 and 2. -/
theorem risk_percent_monotone_in_price_witness :
    (calculateIndicators 1 sampleDate 50).riskPercent ≤
      (calculateIndicators 2 sampleDate 50).riskPercent :=
  risk_percent_monotone_in_price sampleDate 50 1 2
    (by rw [sampleDate_days]; norm_num) (by norm_num) (by norm_num)
